import Mathlib

/-!
Verification of the ODPS export tool (`src/app.py`).

The program is a single-file pipeline: credential-scoped connection
acquisition (`get_odps_connection`), a bounded `SELECT *` query
(`safe_odps_query`, clamping the requested row limit to 1,000,000), and a
chunked spreadsheet writer that splits the resulting table into sheets of
800,000 rows each, named `数据_{i+1}`, written into a temporary file.

The embedding below is shallow: the external warehouse client (the `ODPS`
constructor and `execute_sql`) and the spreadsheet serializer
(`pd.ExcelWriter`) are opaque function parameters; rows are an abstract
type `α`; dataframes are `List α`.  Instrumentation counters record how
often an external call is made (constructor invocations, SQL statements
issued, writer invocations) so that "never invoked" claims are provable.
-/

namespace OdpsExport

/-- Credentials entered in the sidebar of `app.py` (lines 53-77):
Access ID, Access Key, project name and service endpoint. -/
structure Creds where
  access_id : String
  access_key : String
  project : String
  endpoint : String
deriving DecidableEq

/-- Outcome of `get_odps_connection` (lines 18-28): either the guard
rejects empty credentials (`st.error("请输入完整的ODPS凭据")`, return
`None`), or the `ODPS(...)` constructor raises
(`st.error(f"ODPS连接失败: {e}")`, return `None`), or a handle is
returned. -/
inductive ConnOutcome (H : Type) where
  | invalidCredentials : ConnOutcome H
  | connectionError : String → ConnOutcome H
  | conn : H → ConnOutcome H
deriving DecidableEq

/-- `get_odps_connection` (lines 18-28).  `odps` is the external
`ODPS(access_id, access_key, project, endpoint)` constructor, opaque and
fallible.  The second component counts how many times that constructor is
invoked during the call (0 when the empty-credential guard fires, 1
otherwise — the guard at line 21 runs before the constructor at line 25,
and there is no retry loop). -/
def get_odps_connection {H : Type} (odps : Creds → Except String H)
    (c : Creds) : ConnOutcome H × Nat :=
  if c.access_id = "" ∨ c.access_key = "" then
    (ConnOutcome.invalidCredentials, 0)
  else
    match odps c with
    | Except.ok h => (ConnOutcome.conn h, 1)
    | Except.error e => (ConnOutcome.connectionError ("ODPS连接失败: " ++ e), 1)

/-- Line 38: `safe_max_rows = min(max_rows, 1000000)`. -/
def safe_max_rows (max_rows : Nat) : Nat :=
  min max_rows 1000000

/-- Line 39: `sql = f"SELECT * FROM {table_name} LIMIT {safe_max_rows}"`. -/
def sql_for (table_name : String) (max_rows : Nat) : String :=
  "SELECT * FROM " ++ table_name ++ " LIMIT " ++ toString (safe_max_rows max_rows)

/-- Result of `safe_odps_query`: the returned dataframe (`none` models the
Python `None` returned on every failure path), the list of SQL statements
actually sent to the warehouse during the call, and the `st.error`
messages shown. -/
structure QueryResult (α : Type) where
  result : Option (List α)
  issuedSQL : List String
  errors : List String
deriving DecidableEq

/-- `safe_odps_query` (lines 30-47).  `runSQL` is the external
`execute_sql(...).open_reader().to_pandas()` pipeline, opaque and
fallible.  The clamp at line 38 is applied before the SQL string is built
at line 39, which happens before anything is sent at line 42; when the
connection stage fails no SQL is issued at all. -/
def safe_odps_query {H α : Type} (odps : Creds → Except String H)
    (runSQL : H → String → Except String (List α))
    (c : Creds) (table_name : String) (max_rows : Nat) : QueryResult α :=
  match get_odps_connection odps c with
  | (ConnOutcome.invalidCredentials, _) =>
      { result := none, issuedSQL := [], errors := ["请输入完整的ODPS凭据"] }
  | (ConnOutcome.connectionError e, _) =>
      { result := none, issuedSQL := [], errors := [e] }
  | (ConnOutcome.conn h, _) =>
      match runSQL h (sql_for table_name max_rows) with
      | Except.ok rows =>
          { result := some rows, issuedSQL := [sql_for table_name max_rows], errors := [] }
      | Except.error e =>
          { result := none, issuedSQL := [sql_for table_name max_rows],
            errors := ["查询失败: " ++ e] }

/-- One sheet of the spreadsheet artifact: its `sheet_name` and the data
rows written into it (`to_excel(..., index=False)` additionally writes the
header row; headers are not part of the row model here). -/
structure Sheet (α : Type) where
  name : String
  rows : List α
deriving DecidableEq

/-- Line 139/148: rows per sheet, `800000`. -/
def chunk_size : Nat := 800000

/-- Line 139: `sheet_num = math.ceil(len(df) / 800000)`, exact ceiling
division on naturals. -/
def sheet_num (n : Nat) : Nat :=
  (n + chunk_size - 1) / chunk_size

/-- The `pd.ExcelWriter` loop (lines 142-156): for `i in range(sheet_num)`
slice `df.iloc[i*800000 : min((i+1)*800000, len(df))]` into a sheet named
`f'数据_{i+1}'`; sheets are appended in ascending `i` order, which the
list order records. -/
def writeSheets {α : Type} (df : List α) : List (Sheet α) :=
  (List.range (sheet_num df.length)).map (fun i =>
    { name := "数据_" ++ toString (i + 1)
      rows := (df.drop (i * chunk_size)).take
          (min ((i + 1) * chunk_size) df.length - i * chunk_size) })

/-- Line 162: `filename = f"{table_name.split('.')[-1]}.xlsx"`. -/
def export_filename (table_name : String) : String :=
  (table_name.splitOn ".").getLastD "" ++ ".xlsx"

/-- Outcome of the submit handler (lines 119-197): missing table name
(`st.error("请输入ODPS表名")`), a generated artifact offered for
download, or the shared error branch at line 192
(`st.error("查询失败或返回空数据，请检查：")`) taken both when the query
returned `None` and when it returned an empty dataframe. -/
inductive SubmitOutcome (α : Type) where
  | emptyTableName : SubmitOutcome α
  | artifact : List (Sheet α) → String → SubmitOutcome α
  | queryOrEmptyError : SubmitOutcome α
deriving DecidableEq

/-- The `if submitted:` block (lines 119-197).  The second component
counts invocations of the spreadsheet writer (the `pd.ExcelWriter` block,
lines 137-159): the writer runs only in the `df is not None and not
df.empty` branch at line 125. -/
def handle_submit {H α : Type} (odps : Creds → Except String H)
    (runSQL : H → String → Except String (List α))
    (c : Creds) (table_name : String) (max_rows : Nat) : SubmitOutcome α × Nat :=
  if table_name = "" then
    (SubmitOutcome.emptyTableName, 0)
  else
    match (safe_odps_query odps runSQL c table_name max_rows).result with
    | some rows =>
        if rows.isEmpty then (SubmitOutcome.queryOrEmptyError, 0)
        else (SubmitOutcome.artifact (writeSheets rows) (export_filename table_name), 1)
    | none => (SubmitOutcome.queryOrEmptyError, 0)

/-- Outcome of one full run of the `if submitted:` block when the
spreadsheet serialization itself may fail.  Besides the three outcomes of
`SubmitOutcome`, a run can end with an exception escaping the export
block: nothing in `app.py` catches a failure raised inside the
`pd.ExcelWriter` block (lines 142-156) — the only `try/except` nearby
wraps `os.unlink` at lines 187-190 — so the exception propagates out of
the script with no `st.error` call of its own. -/
inductive RunOutcome (α β : Type) where
  | emptyTableName : RunOutcome α β
  | download : List (Sheet α) → String → β → RunOutcome α β
  | queryOrEmptyError : RunOutcome α β
  | uncaughtException : String → RunOutcome α β
deriving DecidableEq

/-- The `if submitted:` block (lines 119-197) with the spreadsheet
serialization modelled as the fallible opaque `serialize` (the
`pd.ExcelWriter` run).  The second component lists every `st.error`
message shown during the run, in order: the empty-table-name message
(line 121), the messages shown inside `safe_odps_query`, and the shared
error text at line 192.  When `serialize` fails, no message is appended —
no handler exists on that path in `app.py`, so the run ends in
`uncaughtException` with the message list unchanged. -/
def run_submit {H α β : Type} (odps : Creds → Except String H)
    (runSQL : H → String → Except String (List α))
    (serialize : List (Sheet α) → Except String β)
    (c : Creds) (table_name : String) (max_rows : Nat) :
    RunOutcome α β × List String :=
  if table_name = "" then
    (RunOutcome.emptyTableName, ["请输入ODPS表名"])
  else
    let q := safe_odps_query odps runSQL c table_name max_rows
    match q.result with
    | some rows =>
        if rows.isEmpty then
          (RunOutcome.queryOrEmptyError, q.errors ++ ["查询失败或返回空数据，请检查："])
        else
          match serialize (writeSheets rows) with
          | Except.ok bytes =>
              (RunOutcome.download (writeSheets rows) (export_filename table_name) bytes,
                q.errors)
          | Except.error e => (RunOutcome.uncaughtException e, q.errors)
    | none =>
        (RunOutcome.queryOrEmptyError, q.errors ++ ["查询失败或返回空数据，请检查："])

/-- Lines 137-190: `tempfile.NamedTemporaryFile(delete=False, ...)` creates
the temporary file; `serialize` is the opaque `pd.ExcelWriter` run writing
all sheets into it (fallible, e.g. an unserializable cell).  On success
the bytes are read back (line 158) and `os.unlink` (line 188) removes the
file; when the write raises, the exception propagates out of the `with`
block — `delete=False` means the context manager does not remove the file
and line 188 is never reached.  Returns the bytes handed to the download
button (if any) and whether the temporary file still exists afterwards. -/
def export_with_temp {α β : Type} (serialize : List (Sheet α) → Except String β)
    (df : List α) : Option β × Bool :=
  match serialize (writeSheets df) with
  | Except.ok bytes => (some bytes, false)
  | Except.error _ => (none, true)

/-- One full run of the artifact generation (lines 137-159) against an
explicit filesystem state: the serialized workbook is written to the
temporary path `tmp_name` (line 142) and then read back from that same
path (lines 158-159).  `fs` is the filesystem contents before the run,
`serialize` the opaque deterministic spreadsheet serializer. -/
def run_export {α β : Type} (serialize : List (Sheet α) → β)
    (fs : String → β) (tmp_name : String) (df : List α) : β :=
  let fs2 := fun p => if p = tmp_name then serialize (writeSheets df) else fs p
  fs2 tmp_name

/-- Line 108: the `max_rows` selectbox options. -/
def max_rows_options : List Nat :=
  [100000, 500000, 1000000, 2000000, 5000000]

/-! Helper lemmas about the chunking arithmetic. -/

/-- The slice taken for sheet `i` is just the first `chunk_size` rows of
`df` with the first `i * chunk_size` rows dropped: the explicit upper
bound `min ((i+1)*chunk_size) df.length` never truncates below what
`take chunk_size` would keep. -/
lemma chunk_take {α : Type} (df : List α) (i : Nat) :
    (df.drop (i * chunk_size)).take (min ((i + 1) * chunk_size) df.length - i * chunk_size)
      = (df.drop (i * chunk_size)).take chunk_size := by
  rw [List.take_eq_take, List.length_drop, add_one_mul]
  omega

/-- Flattening `k` consecutive `chunk`-sized slices of `df` recovers `df`
whenever `k` slices suffice to cover it. -/
lemma flatten_chunks {α : Type} (c : Nat) (k : Nat) :
    ∀ df : List α, df.length ≤ k * c →
      ((List.range k).map (fun i => (df.drop (i * c)).take c)).flatten = df := by
  induction k with
  | zero =>
      intro df h
      simp only [Nat.zero_mul, Nat.le_zero] at h
      simp [List.eq_nil_of_length_eq_zero h]
  | succ k ih =>
      intro df h
      rw [List.range_succ_eq_map, List.map_cons, List.flatten_cons, List.map_map]
      have hfun : ((fun i => (df.drop (i * c)).take c) ∘ Nat.succ)
          = fun i => (((df.drop c).drop (i * c)).take c) := by
        funext i
        simp only [Function.comp, List.drop_drop, Nat.succ_mul]
        rw [Nat.add_comm (i * c) c]
      have h2 : (df.drop c).length ≤ k * c := by
        rw [add_one_mul] at h
        rw [List.length_drop]
        omega
      rw [hfun, ih (df.drop c) h2]
      simp [List.take_append_drop]

/-- `sheet_num` slices of `chunk_size` rows always cover the table. -/
lemma length_le_sheet_num_mul (n : Nat) : n ≤ sheet_num n * chunk_size := by
  simp only [sheet_num, chunk_size]
  omega

/-- The data rows of the sheets produced by `writeSheets`, in sheet
order. -/
lemma writeSheets_map_rows {α : Type} (df : List α) :
    (writeSheets df).map Sheet.rows
      = (List.range (sheet_num df.length)).map
          (fun i => (df.drop (i * chunk_size)).take chunk_size) := by
  unfold writeSheets
  rw [List.map_map]
  refine List.map_congr_left fun i _ => ?_
  simpa [Function.comp] using chunk_take df i

/-- The size of each sheet produced by `writeSheets`, in sheet order. -/
lemma writeSheets_sizes {α : Type} (df : List α) :
    (writeSheets df).map (fun s => s.rows.length)
      = (List.range (sheet_num df.length)).map
          (fun i => min ((i + 1) * chunk_size) df.length - i * chunk_size) := by
  unfold writeSheets
  rw [List.map_map]
  refine List.map_congr_left fun i _ => ?_
  simp only [Function.comp, List.length_take, List.length_drop]
  simp only [add_one_mul]
  omega

/-- C2: for a table of `n > 0` rows and chunk size 800000, the writer
produces exactly `ceil(n / 800000)` sheets; sheet `i` is named
`数据_{i+1}` and holds exactly the contiguous row slice
`[i*800000, min((i+1)*800000, n))`, sheets appearing in ascending `i`
order; `n = 1600001` yields 3 sheets of sizes `[800000, 800000, 1]` and
`n = 800000` yields exactly one sheet with no trailing empty sheet. -/
theorem writer_chunk_boundaries {α : Type} (df : List α) (_hpos : 0 < df.length) :
    (writeSheets df).length = df.length ⌈/⌉ 800000 ∧
    (∀ i, ∀ h : i < (writeSheets df).length,
      ((writeSheets df).get ⟨i, h⟩).name = "数据_" ++ toString (i + 1) ∧
      ((writeSheets df).get ⟨i, h⟩).rows
        = (df.take (min ((i + 1) * 800000) df.length)).drop (i * 800000)) ∧
    (df.length = 1600001 →
      (writeSheets df).map (fun s => s.rows.length) = [800000, 800000, 1]) ∧
    (df.length = 800000 →
      (writeSheets df).map (fun s => s.rows.length) = [800000]) := by
  refine ⟨?_, ?_, ?_, ?_⟩
  · simp [writeSheets, sheet_num, chunk_size, Nat.ceilDiv_eq_add_pred_div]
  · intro i h
    constructor
    · simp [writeSheets]
    · simp only [writeSheets, List.get_eq_getElem, List.getElem_map, List.getElem_range]
      rw [List.drop_take]
      simp [chunk_size]
  · intro hn
    rw [writeSheets_sizes, hn]
    decide
  · intro hn
    rw [writeSheets_sizes, hn]
    decide

/-- Witness for C2 at the concrete boundary input `n = 1600001`. -/
theorem writer_chunk_boundaries_witness :
    0 < (List.replicate 1600001 (0 : Nat)).length ∧
    (writeSheets (List.replicate 1600001 (0 : Nat))).map (fun s => s.rows.length)
      = [800000, 800000, 1] := by
  have h : (List.replicate 1600001 (0 : Nat)).length = 1600001 := by
    rw [List.length_replicate]
  have hpos : 0 < (List.replicate 1600001 (0 : Nat)).length := by
    rw [h]
    omega
  exact ⟨hpos, (writer_chunk_boundaries _ hpos).2.2.1 h⟩

/-- C3: concatenating the data-row slices of all sheets in ascending
sheet order reproduces the original row sequence exactly, and the total
row count over all sheets equals `n` — no duplication, no drop, order
preserved. -/
theorem sheets_concat_reconstructs {α : Type} (df : List α) :
    ((writeSheets df).map Sheet.rows).flatten = df ∧
    ((writeSheets df).map (fun s => s.rows.length)).sum = df.length := by
  have hmain : ((writeSheets df).map Sheet.rows).flatten = df := by
    rw [writeSheets_map_rows]
    exact flatten_chunks chunk_size (sheet_num df.length) df
      (length_le_sheet_num_mul df.length)
  refine ⟨hmain, ?_⟩
  have hlen := congrArg List.length hmain
  rw [List.length_flatten, List.map_map] at hlen
  simpa [Function.comp] using hlen

/-- C1: whenever a query is actually issued, the row limit embedded in
the SQL sent to the warehouse equals `min(rowLimit, 1000000)`; the clamp
is the one applied at line 38 before the query is issued, and a requested
value above the ceiling is never honored. -/
theorem effective_limit_clamped {H α : Type} (odps : Creds → Except String H)
    (runSQL : H → String → Except String (List α)) (c : Creds) (t : String)
    (m : Nat) (h : H)
    (hconn : (get_odps_connection odps c).1 = ConnOutcome.conn h) :
    (safe_odps_query odps runSQL c t m).issuedSQL
        = ["SELECT * FROM " ++ t ++ " LIMIT " ++ toString (min m 1000000)] ∧
    safe_max_rows m = min m 1000000 ∧
    (1000000 < m → safe_max_rows m = 1000000 ∧ safe_max_rows m ≠ m) := by
  refine ⟨?_, rfl, fun hm => ⟨?_, ?_⟩⟩
  · rcases hg : get_odps_connection odps c with ⟨co, k⟩
    rw [hg] at hconn
    simp only at hconn
    subst hconn
    cases hr : runSQL h (sql_for t m) with
    | ok rows =>
        simp only [safe_odps_query, hg, hr]
        simp [sql_for, safe_max_rows]
    | error e =>
        simp only [safe_odps_query, hg, hr]
        simp [sql_for, safe_max_rows]
  · simp [safe_max_rows]
    omega
  · simp [safe_max_rows]
    omega

/-- Witness for C1: with working external services and a requested limit
of 2,000,000, the SQL issued carries the clamped limit 1,000,000. -/
theorem effective_limit_clamped_witness :
    (safe_odps_query (fun _ => Except.ok (0 : Nat))
        (fun _ _ => Except.ok ([] : List Nat))
        (Creds.mk "id" "key" "proj" "ep") "tbl" 2000000).issuedSQL
      = ["SELECT * FROM " ++ "tbl" ++ " LIMIT " ++ toString (min 2000000 1000000)] ∧
    safe_max_rows 2000000 = 1000000 := by
  have h := effective_limit_clamped (fun _ => Except.ok (0 : Nat))
    (fun _ _ => Except.ok ([] : List Nat))
    (Creds.mk "id" "key" "proj" "ep") "tbl" 2000000 0 (by decide)
  exact ⟨h.1, (h.2.2 (by omega)).1⟩

/-- C6: when `accessId` or `accessSecret` is empty, `get_odps_connection`
fails on the guard at line 21 before the `ODPS` constructor is ever
invoked (invocation count 0), and a failed connection is never retried:
the constructor runs at most once, and exactly once whenever the guard
passes. -/
theorem invalid_credentials_no_network {H : Type}
    (odps : Creds → Except String H) (c : Creds) :
    ((c.access_id = "" ∨ c.access_key = "") →
      get_odps_connection odps c = (ConnOutcome.invalidCredentials, 0)) ∧
    (get_odps_connection odps c).2 ≤ 1 ∧
    (c.access_id ≠ "" → c.access_key ≠ "" → (get_odps_connection odps c).2 = 1) := by
  by_cases h1 : c.access_id = "" <;> by_cases h2 : c.access_key = "" <;>
    simp [get_odps_connection, h1, h2] <;>
    cases odps c <;> simp

/-- Witness for C6: empty access key at a concrete input (constructor
never invoked), and a failing constructor attempted exactly once with
nonempty credentials. -/
theorem invalid_credentials_no_network_witness :
    get_odps_connection (fun _ => Except.ok (0 : Nat))
        (Creds.mk "id" "" "proj" "ep")
      = (ConnOutcome.invalidCredentials, 0) ∧
    (get_odps_connection (fun _ => (Except.error "down" : Except String Nat))
        (Creds.mk "id" "key" "proj" "ep")).2 = 1 := by
  refine ⟨(invalid_credentials_no_network (fun _ => Except.ok (0 : Nat))
      (Creds.mk "id" "" "proj" "ep")).1 (Or.inr rfl), ?_⟩
  exact (invalid_credentials_no_network
      (fun _ => (Except.error "down" : Except String Nat))
      (Creds.mk "id" "key" "proj" "ep")).2.2 (by decide) (by decide)

/-- A successful query shows no error message of its own: when
`safe_odps_query` returns a dataframe, its `st.error` list is empty. -/
lemma result_some_errors_nil {H α : Type} (odps : Creds → Except String H)
    (runSQL : H → String → Except String (List α)) (c : Creds) (t : String)
    (m : Nat) (rows : List α)
    (hres : (safe_odps_query odps runSQL c t m).result = some rows) :
    (safe_odps_query odps runSQL c t m).errors = [] := by
  rcases hg : get_odps_connection odps c with ⟨co, k⟩
  cases co with
  | invalidCredentials => exfalso; simp [safe_odps_query, hg] at hres
  | connectionError e => exfalso; simp [safe_odps_query, hg] at hres
  | conn h =>
      cases hr : runSQL h (sql_for t m) with
      | ok rs => simp [safe_odps_query, hg, hr]
      | error e => exfalso; simp [safe_odps_query, hg, hr] at hres

/-- C7 counterexample (closed): a writer-stage failure is not surfaced as
a message.  With a working connection and a query returning one row, a
serializer that raises leaves the run in `uncaughtException` with an
empty list of `st.error` messages — the failure escapes the code instead
of being surfaced, refuting the claim that every failure in any stage is
surfaced to the caller as a message. -/
theorem writer_failure_unsurfaced_counterexample :
    run_submit (fun _ => Except.ok (0 : Nat)) (fun _ _ => Except.ok [0])
        (fun _ : List (Sheet Nat) => (Except.error "boom" : Except String Nat))
        (Creds.mk "id" "key" "proj" "ep") "tbl" 10
      = (RunOutcome.uncaughtException "boom", ([] : List String)) := by
  decide

/-- C7 (amended): the connection and query stages fail closed and surface
their failures as messages — when connection acquisition does not yield a
handle, no SQL is ever issued; whenever the query stage fails (result
`None`), an error message is shown; and with a nonempty table name a
failed query means the writer is never invoked (invocation count 0) and
no artifact outcome is produced.  A writer-stage failure, however, is not
surfaced by the code: the run ends with the serialization exception
escaping the export block and no message of its own shown. -/
theorem pipeline_fails_closed {H α β : Type} (odps : Creds → Except String H)
    (runSQL : H → String → Except String (List α))
    (serialize : List (Sheet α) → Except String β) (c : Creds) (t : String)
    (m : Nat) :
    ((∀ h : H, (get_odps_connection odps c).1 ≠ ConnOutcome.conn h) →
      (safe_odps_query odps runSQL c t m).issuedSQL = [] ∧
      (safe_odps_query odps runSQL c t m).result = none ∧
      (safe_odps_query odps runSQL c t m).errors ≠ []) ∧
    ((safe_odps_query odps runSQL c t m).result = none →
      (safe_odps_query odps runSQL c t m).errors ≠ []) ∧
    (t ≠ "" → (safe_odps_query odps runSQL c t m).result = none →
      handle_submit odps runSQL c t m = (SubmitOutcome.queryOrEmptyError, 0)) ∧
    (∀ (rows : List α) (e : String), t ≠ "" →
      (safe_odps_query odps runSQL c t m).result = some rows → rows ≠ [] →
      serialize (writeSheets rows) = Except.error e →
      run_submit odps runSQL serialize c t m
        = (RunOutcome.uncaughtException e, [])) := by
  refine ⟨?_, ?_, ?_, ?_⟩
  · intro hno
    rcases hg : get_odps_connection odps c with ⟨co, k⟩
    cases co with
    | invalidCredentials => simp [safe_odps_query, hg]
    | connectionError e => simp [safe_odps_query, hg]
    | conn h =>
        exfalso
        exact hno h (by rw [hg])
  · intro hres
    rcases hg : get_odps_connection odps c with ⟨co, k⟩
    cases co with
    | invalidCredentials => simp [safe_odps_query, hg]
    | connectionError e => simp [safe_odps_query, hg]
    | conn h =>
        cases hr : runSQL h (sql_for t m) with
        | ok rows =>
            exfalso
            simp [safe_odps_query, hg, hr] at hres
        | error e => simp [safe_odps_query, hg, hr]
  · intro ht hres
    simp [handle_submit, ht, hres]
  · intro rows e ht hres hrows hser
    have herr := result_some_errors_nil odps runSQL c t m rows hres
    cases rows with
    | nil => exact absurd rfl hrows
    | cons a as => simp [run_submit, ht, hres, hser, herr]

/-- Witness for C7: with an unreachable service (constructor raises) and
nonempty credentials, no SQL is issued and the submit handler ends in the
error branch with the writer never invoked; and with a working query but
a raising serializer, the run ends in the escaping exception with no
message shown. -/
theorem pipeline_fails_closed_witness :
    (safe_odps_query (fun _ => (Except.error "down" : Except String Nat))
        (fun _ _ => Except.ok ([] : List Nat))
        (Creds.mk "id" "key" "proj" "ep") "tbl" 10).issuedSQL = [] ∧
    handle_submit (fun _ => (Except.error "down" : Except String Nat))
        (fun _ _ => Except.ok ([] : List Nat))
        (Creds.mk "id" "key" "proj" "ep") "tbl" 10
      = (SubmitOutcome.queryOrEmptyError, 0) ∧
    run_submit (fun _ => Except.ok (0 : Nat)) (fun _ _ => Except.ok [1])
        (fun _ : List (Sheet Nat) => (Except.error "cell" : Except String Nat))
        (Creds.mk "id" "key" "proj" "ep") "tbl" 10
      = (RunOutcome.uncaughtException "cell", []) := by
  have h := pipeline_fails_closed (fun _ => (Except.error "down" : Except String Nat))
    (fun _ _ => Except.ok ([] : List Nat))
    (fun _ : List (Sheet Nat) => (Except.error "cell" : Except String Nat))
    (Creds.mk "id" "key" "proj" "ep") "tbl" 10
  have h2 := pipeline_fails_closed (fun _ => Except.ok (0 : Nat))
    (fun _ _ => Except.ok [1])
    (fun _ : List (Sheet Nat) => (Except.error "cell" : Except String Nat))
    (Creds.mk "id" "key" "proj" "ep") "tbl" 10
  have hval : get_odps_connection (fun _ => (Except.error "down" : Except String Nat))
      (Creds.mk "id" "key" "proj" "ep")
      = (ConnOutcome.connectionError ("ODPS连接失败: " ++ "down"), 1) := by
    decide
  have hno : ∀ hh : Nat,
      (get_odps_connection (fun _ => (Except.error "down" : Except String Nat))
        (Creds.mk "id" "key" "proj" "ep")).1 ≠ ConnOutcome.conn hh := by
    intro hh
    simp [hval]
  refine ⟨(h.1 hno).1, h.2.2.1 (by decide) (h.1 hno).2.1, ?_⟩
  exact h2.2.2.2 [1] "cell" (by decide) (by decide) (by decide) rfl

/-- C5: a valid query returning zero rows is a distinct terminal success
state of the executor: `safe_odps_query` returns the empty dataframe
(`some []`, never equal to the `none` returned by every failure path) and
shows no error of its own; and the submit handler produces no artifact
for it (writer invocation count 0). -/
theorem empty_result_distinct_success {H α : Type}
    (odps : Creds → Except String H)
    (runSQL : H → String → Except String (List α)) (c : Creds) (t : String)
    (m : Nat) (h : H)
    (hid : c.access_id ≠ "") (hkey : c.access_key ≠ "")
    (hconn : odps c = Except.ok h)
    (hq : runSQL h (sql_for t m) = Except.ok ([] : List α)) :
    (safe_odps_query odps runSQL c t m).result = some [] ∧
    (safe_odps_query odps runSQL c t m).errors = [] ∧
    some ([] : List α) ≠ (none : Option (List α)) ∧
    (t ≠ "" →
      handle_submit odps runSQL c t m = (SubmitOutcome.queryOrEmptyError, 0)) := by
  have hg : get_odps_connection odps c = (ConnOutcome.conn h, 1) := by
    simp [get_odps_connection, hid, hkey, hconn]
  have h1 : (safe_odps_query odps runSQL c t m).result = some [] := by
    simp only [safe_odps_query, hg, hq]
  have h2 : (safe_odps_query odps runSQL c t m).errors = [] := by
    simp only [safe_odps_query, hg, hq]
  refine ⟨h1, h2, by simp, fun ht => ?_⟩
  simp [handle_submit, ht, h1]

/-- Witness for C5 at a concrete empty-but-valid table. -/
theorem empty_result_distinct_success_witness :
    (safe_odps_query (fun _ => Except.ok (0 : Nat))
        (fun _ _ => Except.ok ([] : List Nat))
        (Creds.mk "id" "key" "proj" "ep") "tbl" 10).result = some [] ∧
    handle_submit (fun _ => Except.ok (0 : Nat))
        (fun _ _ => Except.ok ([] : List Nat))
        (Creds.mk "id" "key" "proj" "ep") "tbl" 10
      = (SubmitOutcome.queryOrEmptyError, 0) := by
  have h := empty_result_distinct_success (fun _ => Except.ok (0 : Nat))
    (fun _ _ => Except.ok ([] : List Nat)) (Creds.mk "id" "key" "proj" "ep")
    "tbl" 10 0 (by decide) (by decide) rfl rfl
  exact ⟨h.1, h.2.2.2 (by decide)⟩

/-- C4 counterexample (closed): with a valid connection and a query
returning zero rows, the submit handler takes the error branch and the
writer is never invoked — and the writer applied to zero rows would
produce zero sheets, not the one header-only sheet the claim states. -/
theorem empty_result_one_sheet_counterexample :
    writeSheets ([] : List Nat) = [] ∧
    (writeSheets ([] : List Nat)).length ≠ 1 ∧
    handle_submit (fun _ => Except.ok (0 : Nat))
        (fun _ _ => Except.ok ([] : List Nat))
        (Creds.mk "id" "key" "proj" "ep") "tbl" 10
      = (SubmitOutcome.queryOrEmptyError, 0) := by
  refine ⟨rfl, by decide, by decide⟩

/-- C4 (amended): when the query result has `n = 0` rows the export takes
the error branch at line 125: the writer is never invoked, no sheet and
no artifact is produced; and `writeSheets` applied to an empty table
yields zero sheets (`sheet_num 0 = 0`), not one. -/
theorem empty_result_no_sheet {H α : Type} (odps : Creds → Except String H)
    (runSQL : H → String → Except String (List α)) (c : Creds) (t : String)
    (m : Nat) (ht : t ≠ "")
    (hres : (safe_odps_query odps runSQL c t m).result = some ([] : List α)) :
    handle_submit odps runSQL c t m = (SubmitOutcome.queryOrEmptyError, 0) ∧
    writeSheets ([] : List α) = [] := by
  refine ⟨?_, ?_⟩
  · simp [handle_submit, ht, hres]
  · unfold writeSheets
    norm_num [sheet_num, chunk_size]

/-- Witness for the amended C4 at a concrete empty result. -/
theorem empty_result_no_sheet_witness :
    handle_submit (fun _ => Except.ok (0 : Nat))
        (fun _ _ => Except.ok ([] : List Nat))
        (Creds.mk "a" "k" "p" "e") "t" 5
      = (SubmitOutcome.queryOrEmptyError, 0) ∧
    writeSheets ([] : List Nat) = [] :=
  empty_result_no_sheet _ _ _ _ _ (by decide) (by decide)

/-- C8: evaluation of the code at a failing write.  The temporary file is
created with `delete=False` and `os.unlink` (line 188) sits on the
success path only, so when the spreadsheet serialization fails mid-write
the temporary file is left behind — the resource is not released on that
exit path, contradicting the claim. -/
theorem temp_file_leak_on_write_failure {α β : Type}
    (serialize : List (Sheet α) → Except String β) (df : List α) (e : String)
    (hfail : serialize (writeSheets df) = Except.error e) :
    export_with_temp serialize df = (none, true) := by
  simp [export_with_temp, hfail]

/-- Witness for C8 at a concrete always-failing serializer. -/
theorem temp_file_leak_on_write_failure_witness :
    export_with_temp
        (fun _ : List (Sheet Nat) =>
          (Except.error "SerializationError" : Except String Nat)) [0]
      = (none, true) :=
  temp_file_leak_on_write_failure _ _ "SerializationError" rfl

/-- C9: for one fixed tabular input the export is a deterministic
function of that input: two runs — with arbitrary, possibly different
prior filesystem states and temporary-file paths — produce identical
artifact bytes, namely the serialization of the same chunked sheet list
(same chunk boundaries, same bytes). -/
theorem export_bytes_deterministic {α β : Type}
    (serialize : List (Sheet α) → β) (fs1 fs2 : String → β)
    (tmp1 tmp2 : String) (df : List α) :
    run_export serialize fs1 tmp1 df = run_export serialize fs2 tmp2 df ∧
    run_export serialize fs1 tmp1 df = serialize (writeSheets df) := by
  constructor
  · simp [run_export]
  · simp [run_export]

/-- C10: below the ceiling the clamp at line 38 is the identity, and the
selectbox caps 2,000,000 and 5,000,000 (line 108) both exceed the ceiling
and are silently reduced to 1,000,000. -/
theorem clamp_identity_below_ceiling :
    (∀ r : Nat, r ≤ 1000000 → safe_max_rows r = r) ∧
    2000000 ∈ max_rows_options ∧ 5000000 ∈ max_rows_options ∧
    1000000 < 2000000 ∧ 1000000 < 5000000 ∧
    safe_max_rows 2000000 = 1000000 ∧ safe_max_rows 5000000 = 1000000 := by
  refine ⟨fun r hr => ?_, by decide, by decide, by decide, by decide,
    by decide, by decide⟩
  simp only [safe_max_rows]
  omega

/-- Witness for C10 at the concrete selectbox values. -/
theorem clamp_identity_below_ceiling_witness :
    safe_max_rows 100000 = 100000 ∧ safe_max_rows 2000000 = 1000000 :=
  ⟨clamp_identity_below_ceiling.1 100000 (by omega),
    clamp_identity_below_ceiling.2.2.2.2.2.1⟩

end OdpsExport
